import Mathlib

/-!
Shallow embedding of the financial-calculation module of the MDF
feasibility-study backend (`src/backend/server.py`).

Modelling choices:
* Python `float` fields are modelled by exact rationals `ℚ`; the integer
  field `project_life_years` by `ℤ` (Python `range(1, n+1)` sums nothing for
  `n ≤ 0`, mirrored with `Int.toNat`).
* `float('inf')`, the payback sentinel, is modelled by `⊤` in `WithTop ℚ`.
* The IRR trial-and-error loop `for rate in range(1, 100)` is embedded as a
  structurally recursive sweep with explicit fuel (fuel `99` starting at
  rate `1`, returning `99` when the fuel runs out, exactly like the Python
  loop falling through to `return 99`).
* Python raises `ZeroDivisionError` on division by zero.  The primary model
  uses total field division (`x / 0 = 0`); a second, exception-aware model
  (`...E` definitions) returns `Option`, with `none` for a raised
  `ZeroDivisionError`, and is related to the primary model where no division
  by zero occurs.
-/

namespace MdfServer

/-- The `FinancialData` pydantic model of `server.py` (numeric fields as `ℚ`). -/
structure FinancialData where
  land_cost : ℚ := 0
  building_construction : ℚ := 0
  machinery_equipment : ℚ := 0
  installation_cost : ℚ := 0
  pre_operational_expenses : ℚ := 0
  working_capital : ℚ := 0
  palm_fronds_cost_per_ton : ℚ := 0
  adhesive_cost : ℚ := 0
  chemicals_cost : ℚ := 0
  energy_cost_per_unit : ℚ := 0
  labor_cost_monthly : ℚ := 0
  maintenance_cost_monthly : ℚ := 0
  utilities_cost_monthly : ℚ := 0
  administrative_cost_monthly : ℚ := 0
  mdf_price_per_cubic_meter : ℚ := 0
  production_capacity_monthly : ℚ := 0
  project_life_years : ℤ := 10
  discount_rate : ℚ := 10
  tax_rate : ℚ := 15
deriving DecidableEq

/-- The year indices visited by `range(1, project_life_years + 1)`. -/
def yearList (years : ℤ) : List ℕ := List.range' 1 years.toNat

/-- Embeds `calculate_total_investment`: sum of the six investment components. -/
def calculate_total_investment (fd : FinancialData) : ℚ :=
  fd.land_cost + fd.building_construction + fd.machinery_equipment +
    fd.installation_cost + fd.pre_operational_expenses + fd.working_capital

/-- Embeds `calculate_annual_costs`: monthly fixed costs × 12 plus raw material cost
for the annual production volume. -/
def calculate_annual_costs (fd : FinancialData) : ℚ :=
  let monthly_costs := fd.labor_cost_monthly + fd.maintenance_cost_monthly +
    fd.utilities_cost_monthly + fd.administrative_cost_monthly
  let annual_production := fd.production_capacity_monthly * 12
  let raw_material_cost := annual_production * fd.palm_fronds_cost_per_ton
  monthly_costs * 12 + raw_material_cost

/-- Embeds `calculate_annual_revenue`: annual production volume × unit price. -/
def calculate_annual_revenue (fd : FinancialData) : ℚ :=
  let annual_production := fd.production_capacity_monthly * 12
  annual_production * fd.mdf_price_per_cubic_meter

/-- Embeds `calculate_npv`: the accumulation loop
`npv = -total_investment; for year in range(1, life+1): npv += cashflow / (1 + rate/100)**year`. -/
def calculate_npv (fd : FinancialData) : ℚ :=
  let total_investment := calculate_total_investment fd
  let annual_net_cash_flow := calculate_annual_revenue fd - calculate_annual_costs fd
  (yearList fd.project_life_years).foldl
    (fun npv year => npv + annual_net_cash_flow / (1 + fd.discount_rate / 100) ^ year)
    (-total_investment)

/-- The trial NPV computed inside `calculate_irr` for one candidate rate:
the same accumulation loop with the integer candidate `rate` in place of the
stated discount rate. -/
def irr_trial_npv (total_investment annual_net_cash_flow : ℚ) (years : ℤ)
    (rate : ℕ) : ℚ :=
  (yearList years).foldl
    (fun npv_test year => npv_test + annual_net_cash_flow / (1 + (rate : ℚ) / 100) ^ year)
    (-total_investment)

/-- The `for rate in range(1, 100)` sweep of `calculate_irr`, as structural
recursion on the remaining number of iterations (`fuel`).  Started with
`rate = 1` and `fuel = 99` it visits rates `1..99` and falls through to `99`. -/
def irr_sweep (total_investment annual_net_cash_flow : ℚ) (years : ℤ) :
    ℕ → ℕ → ℚ
  | _, 0 => 99
  | rate, fuel + 1 =>
    if irr_trial_npv total_investment annual_net_cash_flow years rate ≤ 0 then
      (rate : ℚ) - 1
    else
      irr_sweep total_investment annual_net_cash_flow years (rate + 1) fuel

/-- Embeds `calculate_irr`: zero on the degenerate guard, otherwise the rate sweep. -/
def calculate_irr (fd : FinancialData) : ℚ :=
  let total_investment := calculate_total_investment fd
  let annual_net_cash_flow := calculate_annual_revenue fd - calculate_annual_costs fd
  if annual_net_cash_flow ≤ 0 ∨ total_investment ≤ 0 then 0
  else irr_sweep total_investment annual_net_cash_flow fd.project_life_years 1 99

/-- Embeds `calculate_payback_period`: the infinity sentinel when the cash flow is
non-positive, else `total_investment / annual_net_cash_flow`. -/
def calculate_payback_period (fd : FinancialData) : WithTop ℚ :=
  let total_investment := calculate_total_investment fd
  let annual_net_cash_flow := calculate_annual_revenue fd - calculate_annual_costs fd
  if annual_net_cash_flow ≤ 0 then ⊤
  else ((total_investment / annual_net_cash_flow : ℚ) : WithTop ℚ)

/-- The result dictionary returned by `calculate_financial_results`. -/
structure FinancialResults where
  total_investment : ℚ
  annual_revenue : ℚ
  annual_costs : ℚ
  annual_profit : ℚ
  npv : ℚ
  irr : ℚ
  payback_period : WithTop ℚ
  roi : ℚ
  is_feasible : Bool
deriving DecidableEq

/-- Embeds `calculate_financial_results`: assembles all metrics; `roi` is guarded by
`total_investment > 0`; `is_feasible` is `npv > 0 and irr > discount_rate`. -/
def calculate_financial_results (fd : FinancialData) : FinancialResults :=
  let total_investment := calculate_total_investment fd
  let annual_revenue := calculate_annual_revenue fd
  let annual_costs := calculate_annual_costs fd
  let annual_profit := annual_revenue - annual_costs
  let npv := calculate_npv fd
  let irr := calculate_irr fd
  let payback_period := calculate_payback_period fd
  let roi := if 0 < total_investment then annual_profit / total_investment * 100 else 0
  { total_investment := total_investment
    annual_revenue := annual_revenue
    annual_costs := annual_costs
    annual_profit := annual_profit
    npv := npv
    irr := irr
    payback_period := payback_period
    roi := roi
    is_feasible := decide (0 < npv ∧ fd.discount_rate < irr) }

/-! ### Helper lemmas -/

/-- The accumulation loop over years `1..n` is the closed-form sum. -/
lemma foldl_add_div (c d init : ℚ) (n : ℕ) :
    (List.range' 1 n).foldl (fun acc y => acc + c / d ^ y) init
      = init + ∑ y in Finset.Icc 1 n, c / d ^ y := by
  induction n with
  | zero => simp
  | succ m ih =>
    rw [List.range'_concat, List.foldl_append, ih,
      Finset.sum_Icc_succ_top (Nat.le_add_left 1 m)]
    simp [add_assoc, Nat.add_comm]

/-- The trial NPV of the IRR sweep is the NPV with the candidate rate
substituted for the stated discount rate. -/
lemma irr_trial_npv_eq_npv_update (fd : FinancialData) (r : ℕ) :
    irr_trial_npv (calculate_total_investment fd)
        (calculate_annual_revenue fd - calculate_annual_costs fd)
        fd.project_life_years r
      = calculate_npv { fd with discount_rate := (r : ℚ) } := rfl

/-- Characterisation of the IRR sweep loop: starting at `rate` with
`rate + fuel = 100`, it returns `r - 1` for the first visited rate `r` whose
trial NPV is non-positive, and `99` when every visited rate keeps a positive
trial NPV. -/
lemma irr_sweep_spec (ti cf : ℚ) (yrs : ℤ) :
    ∀ fuel rate, rate + fuel = 100 →
      (∃ r : ℕ, rate ≤ r ∧ r ≤ 99 ∧ irr_trial_npv ti cf yrs r ≤ 0 ∧
          (∀ s : ℕ, rate ≤ s → s < r → 0 < irr_trial_npv ti cf yrs s) ∧
          irr_sweep ti cf yrs rate fuel = (r : ℚ) - 1) ∨
      ((∀ r : ℕ, rate ≤ r → r ≤ 99 → 0 < irr_trial_npv ti cf yrs r) ∧
          irr_sweep ti cf yrs rate fuel = 99) := by
  intro fuel
  induction fuel with
  | zero =>
    intro rate h
    right
    exact ⟨fun r hr1 hr2 => absurd (hr1.trans hr2) (by omega), rfl⟩
  | succ m ih =>
    intro rate h
    by_cases hle : irr_trial_npv ti cf yrs rate ≤ 0
    · left
      exact ⟨rate, le_refl _, by omega, hle,
        fun s hs1 hs2 => absurd (hs1.trans_lt hs2) (lt_irrefl _),
        by simp [irr_sweep, hle]⟩
    · have hpos : 0 < irr_trial_npv ti cf yrs rate := lt_of_not_le hle
      rcases ih (rate + 1) (by omega) with ⟨r, h1, h2, h3, h4, h5⟩ | ⟨hall, heq⟩
      · left
        refine ⟨r, by omega, h2, h3, ?_, by simp [irr_sweep, hle, h5]⟩
        intro s hs1 hs2
        rcases Nat.eq_or_lt_of_le hs1 with hs | hs
        · exact hs ▸ hpos
        · exact h4 s hs hs2
      · right
        refine ⟨?_, by simp [irr_sweep, hle, heq]⟩
        intro r hr1 hr2
        rcases Nat.eq_or_lt_of_le hr1 with hr | hr
        · exact hr ▸ hpos
        · exact hall r hr hr2

/-- With a positive cash flow, the trial NPV does not increase as the
candidate rate grows. -/
lemma irr_trial_npv_anti (ti cf : ℚ) (yrs : ℤ) (hcf : 0 < cf) {r1 r2 : ℕ}
    (h12 : r1 ≤ r2) :
    irr_trial_npv ti cf yrs r2 ≤ irr_trial_npv ti cf yrs r1 := by
  unfold irr_trial_npv yearList
  rw [foldl_add_div, foldl_add_div]
  refine add_le_add_left (Finset.sum_le_sum fun y hy => ?_) _
  have hd1 : (0 : ℚ) < (1 + (r1 : ℚ) / 100) ^ y :=
    pow_pos (by positivity) y
  refine div_le_div_of_nonneg_left hcf.le hd1 ?_
  exact pow_le_pow_left₀ (by positivity) (by gcongr) y

/-- If the trial NPV is still positive at rate 99 (with positive cash flow
and investment), the sweep saturates and `calculate_irr` returns 99. -/
lemma calculate_irr_saturates (fd : FinancialData)
    (hcf : 0 < calculate_annual_revenue fd - calculate_annual_costs fd)
    (hti : 0 < calculate_total_investment fd)
    (h99 : 0 < irr_trial_npv (calculate_total_investment fd)
        (calculate_annual_revenue fd - calculate_annual_costs fd)
        fd.project_life_years 99) :
    calculate_irr fd = 99 := by
  have hneg : ¬(calculate_annual_revenue fd - calculate_annual_costs fd ≤ 0 ∨
      calculate_total_investment fd ≤ 0) := by
    push_neg
    exact ⟨hcf, hti⟩
  have hirr : calculate_irr fd = irr_sweep (calculate_total_investment fd)
      (calculate_annual_revenue fd - calculate_annual_costs fd)
      fd.project_life_years 1 99 := by
    simp only [calculate_irr]
    rw [if_neg hneg]
  rcases irr_sweep_spec (calculate_total_investment fd)
      (calculate_annual_revenue fd - calculate_annual_costs fd)
      fd.project_life_years 99 1 rfl with ⟨r, _, h2, h3, _, _⟩ | ⟨_, heq⟩
  · exact absurd (h99.trans_le (irr_trial_npv_anti _ _ _ hcf h2)) (not_lt.mpr h3)
  · rw [hirr, heq]

/-! ### Exception-aware model (`ZeroDivisionError` tracked as `none`) -/

/-- Python division: `none` models a raised `ZeroDivisionError`. -/
def qdiv? (a b : ℚ) : Option ℚ := if b = 0 then none else some (a / b)

/-- The NPV accumulation loop with each division checked, aborting (like a
raised exception) at the first zero divisor. -/
def npv_loopE (annual_net_cash_flow d : ℚ) (years : List ℕ) (init : ℚ) :
    Option ℚ :=
  years.foldlM
    (fun npv year => (qdiv? annual_net_cash_flow (d ^ year)).map (fun t => npv + t))
    init

/-- Version of `calculate_npv` with exception tracking. -/
def calculate_npvE (fd : FinancialData) : Option ℚ :=
  let total_investment := calculate_total_investment fd
  let annual_net_cash_flow := calculate_annual_revenue fd - calculate_annual_costs fd
  npv_loopE annual_net_cash_flow (1 + fd.discount_rate / 100)
    (yearList fd.project_life_years) (-total_investment)

/-- The IRR sweep with exception tracking. -/
def irr_sweepE (total_investment annual_net_cash_flow : ℚ) (years : ℤ) :
    ℕ → ℕ → Option ℚ
  | _, 0 => some 99
  | rate, fuel + 1 =>
    match npv_loopE annual_net_cash_flow (1 + (rate : ℚ) / 100) (yearList years)
        (-total_investment) with
    | none => none
    | some npv_test =>
      if npv_test ≤ 0 then some ((rate : ℚ) - 1)
      else irr_sweepE total_investment annual_net_cash_flow years (rate + 1) fuel

/-- Version of `calculate_irr` with exception tracking. -/
def calculate_irrE (fd : FinancialData) : Option ℚ :=
  let total_investment := calculate_total_investment fd
  let annual_net_cash_flow := calculate_annual_revenue fd - calculate_annual_costs fd
  if annual_net_cash_flow ≤ 0 ∨ total_investment ≤ 0 then some 0
  else irr_sweepE total_investment annual_net_cash_flow fd.project_life_years 1 99

/-- Version of `calculate_payback_period` with exception tracking. -/
def calculate_payback_periodE (fd : FinancialData) : Option (WithTop ℚ) :=
  let total_investment := calculate_total_investment fd
  let annual_net_cash_flow := calculate_annual_revenue fd - calculate_annual_costs fd
  if annual_net_cash_flow ≤ 0 then some ⊤
  else (qdiv? total_investment annual_net_cash_flow).map (fun q => (q : WithTop ℚ))

/-- Version of `calculate_financial_results` with exception tracking, in the order the
Python function evaluates its parts. -/
def calculate_financial_resultsE (fd : FinancialData) : Option FinancialResults := do
  let total_investment := calculate_total_investment fd
  let annual_revenue := calculate_annual_revenue fd
  let annual_costs := calculate_annual_costs fd
  let annual_profit := annual_revenue - annual_costs
  let npv ← calculate_npvE fd
  let irr ← calculate_irrE fd
  let payback_period ← calculate_payback_periodE fd
  let roi ← if 0 < total_investment then
      (qdiv? annual_profit total_investment).map (fun q => q * 100)
    else some 0
  pure { total_investment := total_investment
         annual_revenue := annual_revenue
         annual_costs := annual_costs
         annual_profit := annual_profit
         npv := npv
         irr := irr
         payback_period := payback_period
         roi := roi
         is_feasible := decide (0 < npv ∧ fd.discount_rate < irr) }

/-- When the discount factor base is nonzero no division in the NPV loop can
fail, and the checked loop computes the total one. -/
lemma npv_loopE_eq (cf d : ℚ) (hd : d ≠ 0) (l : List ℕ) :
    ∀ init : ℚ, npv_loopE cf d l init
      = some (l.foldl (fun acc y => acc + cf / d ^ y) init) := by
  induction l with
  | nil => intro init; rfl
  | cons a t ih =>
    intro init
    have hq : qdiv? cf (d ^ a) = some (cf / d ^ a) := by
      rw [qdiv?, if_neg (pow_ne_zero a hd)]
    simp only [npv_loopE, List.foldlM_cons, hq, Option.map_some', Option.bind_eq_bind,
      Option.some_bind, List.foldl_cons]
    exact ih (init + cf / d ^ a)

/-- Lemma: `calculate_npvE` agrees with `calculate_npv` whenever the discount factor
base is nonzero. -/
lemma calculate_npvE_eq (fd : FinancialData)
    (hd : (1 : ℚ) + fd.discount_rate / 100 ≠ 0) :
    calculate_npvE fd = some (calculate_npv fd) :=
  npv_loopE_eq _ _ hd _ _

/-- The checked IRR sweep never fails (its divisors are positive) and agrees
with the total sweep. -/
lemma irr_sweepE_eq (ti cf : ℚ) (yrs : ℤ) :
    ∀ fuel rate, 1 ≤ rate →
      irr_sweepE ti cf yrs rate fuel = some (irr_sweep ti cf yrs rate fuel) := by
  intro fuel
  induction fuel with
  | zero => intro rate _; rfl
  | succ m ih =>
    intro rate hrate
    have hd : (1 : ℚ) + (rate : ℚ) / 100 ≠ 0 := by positivity
    have hloop : npv_loopE cf (1 + (rate : ℚ) / 100) (yearList yrs) (-ti)
        = some (irr_trial_npv ti cf yrs rate) := npv_loopE_eq cf _ hd _ _
    by_cases hle : irr_trial_npv ti cf yrs rate ≤ 0
    · simp [irr_sweepE, irr_sweep, hloop, hle]
    · simp [irr_sweepE, irr_sweep, hloop, hle, ih (rate + 1) (by omega)]

/-- Lemma: `calculate_irrE` never fails and agrees with `calculate_irr`. -/
lemma calculate_irrE_eq (fd : FinancialData) :
    calculate_irrE fd = some (calculate_irr fd) := by
  simp only [calculate_irrE, calculate_irr]
  split_ifs with h
  · rfl
  · exact irr_sweepE_eq _ _ _ 99 1 (le_refl 1)

/-- Lemma: `calculate_payback_periodE` never fails and agrees with
`calculate_payback_period`. -/
lemma calculate_payback_periodE_eq (fd : FinancialData) :
    calculate_payback_periodE fd = some (calculate_payback_period fd) := by
  by_cases h : calculate_annual_revenue fd - calculate_annual_costs fd ≤ 0
  · simp [calculate_payback_periodE, calculate_payback_period, h]
  · have hne : calculate_annual_revenue fd - calculate_annual_costs fd ≠ 0 :=
      fun he => h he.le
    simp [calculate_payback_periodE, calculate_payback_period, h, qdiv?, hne]

/-- Helper: under a degenerate input the IRR guard returns 0. -/
lemma irr_guard_zero (fd : FinancialData)
    (h : calculate_annual_revenue fd - calculate_annual_costs fd ≤ 0 ∨
      calculate_total_investment fd ≤ 0) :
    calculate_irr fd = 0 := by
  simp only [calculate_irr]
  rw [if_pos h]

/-! ### Concrete inputs used by witnesses and counterexamples -/

/-- Input with every cost/revenue field zero (pydantic defaults elsewhere). -/
def default_input : FinancialData := {}

/-- Stated discount rate `-100`: the NPV discount factor is zero. -/
def rate_neg100_input : FinancialData :=
  { project_life_years := 1, discount_rate := -100 }

/-- Positive investment with negative annual profit. -/
def negative_profit_input : FinancialData :=
  { land_cost := 100, labor_cost_monthly := 1 }

/-- Positive profit, one-year life, no investment. -/
def one_year_input : FinancialData :=
  { production_capacity_monthly := 1, mdf_price_per_cubic_meter := 100,
    project_life_years := 1 }

/-- Small positive investment and positive profit. -/
def simple_profit_input : FinancialData :=
  { land_cost := 1, production_capacity_monthly := 1,
    mdf_price_per_cubic_meter := 1 }

/-! ### Claim theorems -/

/-- C2: `calculate_npv` computes exactly the discrete year-granular
discounting formula: minus total investment plus the sum, over
`year = 1 .. project_life_years`, of the annual profit (annual revenue minus
annual cost) divided by `(1 + discount_rate/100) ^ year`. -/
theorem calculate_npv_closed_form (fd : FinancialData) :
    calculate_npv fd = -calculate_total_investment fd +
      ∑ year in Finset.Icc 1 fd.project_life_years.toNat,
        (calculate_annual_revenue fd - calculate_annual_costs fd) /
          (1 + fd.discount_rate / 100) ^ year :=
  foldl_add_div _ _ _ _

/-- C3: the feasibility verdict is true exactly when the NPV is strictly
positive and the computed IRR strictly exceeds the stated discount rate
(hence false on the boundary IRR = discount rate). -/
theorem is_feasible_iff (fd : FinancialData) :
    (calculate_financial_results fd).is_feasible = true ↔
      (0 < calculate_npv fd ∧ fd.discount_rate < calculate_irr fd) := by
  simp [calculate_financial_results]

/-- C4: whenever annual profit is non-positive or total investment is
non-positive, `calculate_irr` returns 0. -/
theorem calculate_irr_degenerate_zero (fd : FinancialData)
    (h : calculate_annual_revenue fd - calculate_annual_costs fd ≤ 0 ∨
      calculate_total_investment fd ≤ 0) :
    calculate_irr fd = 0 :=
  irr_guard_zero fd h

/-- Witness for C4 at the all-zero-cost input. -/
theorem calculate_irr_degenerate_zero_witness :
    (calculate_annual_revenue default_input - calculate_annual_costs default_input ≤ 0 ∨
      calculate_total_investment default_input ≤ 0) ∧
    calculate_irr default_input = 0 :=
  ⟨Or.inl (by norm_num [calculate_annual_revenue, calculate_annual_costs, default_input]),
    calculate_irr_degenerate_zero default_input
      (Or.inl (by norm_num [calculate_annual_revenue, calculate_annual_costs, default_input]))⟩

/-- C7: the payback period is total investment over annual profit when the
profit is positive, and the infinity sentinel otherwise. -/
theorem calculate_payback_period_spec (fd : FinancialData) :
    calculate_payback_period fd =
      if 0 < calculate_annual_revenue fd - calculate_annual_costs fd then
        ((calculate_total_investment fd /
            (calculate_annual_revenue fd - calculate_annual_costs fd) : ℚ) : WithTop ℚ)
      else ⊤ := by
  simp only [calculate_payback_period]
  rcases le_or_lt (calculate_annual_revenue fd - calculate_annual_costs fd) 0 with h | h
  · rw [if_pos h, if_neg (not_lt.mpr h)]
  · rw [if_neg (not_le.mpr h), if_pos h]

/-- C10: `calculate_irr` never reads the stated discount rate, so changing
only that field leaves the IRR unchanged. -/
theorem calculate_irr_ignores_discount_rate (fd : FinancialData) (r : ℚ) :
    calculate_irr { fd with discount_rate := r } = calculate_irr fd := rfl

/-- C1: with positive annual profit and positive total investment,
`calculate_irr` returns `r - 1` for the smallest rate `r` in `1..99` whose
recomputed NPV (candidate rate in place of the stated discount rate, same
project life) is non-positive, and `99` when that NPV stays positive through
rate 99. -/
theorem calculate_irr_eq_last_positive_rate (fd : FinancialData)
    (hcf : 0 < calculate_annual_revenue fd - calculate_annual_costs fd)
    (hti : 0 < calculate_total_investment fd) :
    (∃ r : ℕ, 1 ≤ r ∧ r ≤ 99 ∧
        calculate_npv { fd with discount_rate := (r : ℚ) } ≤ 0 ∧
        (∀ s : ℕ, 1 ≤ s → s < r →
          0 < calculate_npv { fd with discount_rate := (s : ℚ) }) ∧
        calculate_irr fd = (r : ℚ) - 1) ∨
    ((∀ r : ℕ, 1 ≤ r → r ≤ 99 →
        0 < calculate_npv { fd with discount_rate := (r : ℚ) }) ∧
      calculate_irr fd = 99) := by
  have hneg : ¬(calculate_annual_revenue fd - calculate_annual_costs fd ≤ 0 ∨
      calculate_total_investment fd ≤ 0) := by
    push_neg
    exact ⟨hcf, hti⟩
  have hirr : calculate_irr fd = irr_sweep (calculate_total_investment fd)
      (calculate_annual_revenue fd - calculate_annual_costs fd)
      fd.project_life_years 1 99 := by
    simp only [calculate_irr]
    rw [if_neg hneg]
  have h := irr_sweep_spec (calculate_total_investment fd)
      (calculate_annual_revenue fd - calculate_annual_costs fd)
      fd.project_life_years 99 1 rfl
  simp only [irr_trial_npv_eq_npv_update, ← hirr] at h
  exact h

/-- Witness for C1 at a small input with positive profit and investment. -/
theorem calculate_irr_eq_last_positive_rate_witness :
    (0 < calculate_annual_revenue simple_profit_input -
        calculate_annual_costs simple_profit_input ∧
      0 < calculate_total_investment simple_profit_input) ∧
    ((∃ r : ℕ, 1 ≤ r ∧ r ≤ 99 ∧
        calculate_npv { simple_profit_input with discount_rate := (r : ℚ) } ≤ 0 ∧
        (∀ s : ℕ, 1 ≤ s → s < r →
          0 < calculate_npv { simple_profit_input with discount_rate := (s : ℚ) }) ∧
        calculate_irr simple_profit_input = (r : ℚ) - 1) ∨
    ((∀ r : ℕ, 1 ≤ r → r ≤ 99 →
        0 < calculate_npv { simple_profit_input with discount_rate := (r : ℚ) }) ∧
      calculate_irr simple_profit_input = 99)) :=
  ⟨⟨by norm_num [calculate_annual_revenue, calculate_annual_costs, simple_profit_input],
    by norm_num [calculate_total_investment, simple_profit_input]⟩,
    calculate_irr_eq_last_positive_rate simple_profit_input
      (by norm_num [calculate_annual_revenue, calculate_annual_costs, simple_profit_input])
      (by norm_num [calculate_total_investment, simple_profit_input])⟩

/-- C5 (amended): as long as the stated discount factor base
`1 + discount_rate/100` is nonzero, every division succeeds and the
exception-aware computation returns the result record of the total model. -/
theorem calculate_financial_results_no_exception (fd : FinancialData)
    (hd : (1 : ℚ) + fd.discount_rate / 100 ≠ 0) :
    calculate_financial_resultsE fd = some (calculate_financial_results fd) := by
  simp only [calculate_financial_resultsE, calculate_financial_results,
    calculate_npvE_eq fd hd, calculate_irrE_eq, calculate_payback_periodE_eq,
    Option.bind_eq_bind, Option.some_bind]
  split_ifs with h
  · have hne : calculate_total_investment fd ≠ 0 := ne_of_gt h
    simp [qdiv?, hne]
  · rfl

/-- Counterexample to C5 as stated: at stated discount rate `-100` (with one
project year) the NPV loop divides by zero, modelling Python's raised
`ZeroDivisionError`. -/
theorem calculate_financial_results_raises_at_rate_neg100 :
    calculate_financial_resultsE rate_neg100_input = none := by
  have hnpv : calculate_npvE rate_neg100_input = none := by
    norm_num [calculate_npvE, npv_loopE, yearList, rate_neg100_input, List.range', qdiv?]
  simp [calculate_financial_resultsE, hnpv]

/-- Witness for the amended C5 at the all-zero-cost input. -/
theorem calculate_financial_results_no_exception_witness :
    (1 : ℚ) + default_input.discount_rate / 100 ≠ 0 ∧
    calculate_financial_resultsE default_input =
      some (calculate_financial_results default_input) :=
  ⟨by norm_num [default_input],
    calculate_financial_results_no_exception default_input
      (by norm_num [default_input])⟩

/-- C6 (amended): on degenerate input the IRR field is always 0, the payback
field is the infinity sentinel whenever the annual profit is non-positive,
and the ROI field is 0 whenever the total investment is non-positive. -/
theorem degenerate_input_sentinels (fd : FinancialData)
    (h : calculate_annual_revenue fd - calculate_annual_costs fd ≤ 0 ∨
      calculate_total_investment fd ≤ 0) :
    (calculate_financial_results fd).irr = 0 ∧
    (calculate_annual_revenue fd - calculate_annual_costs fd ≤ 0 →
      (calculate_financial_results fd).payback_period = ⊤) ∧
    (calculate_total_investment fd ≤ 0 →
      (calculate_financial_results fd).roi = 0) := by
  refine ⟨irr_guard_zero fd h, ?_, ?_⟩
  · intro hcf
    show calculate_payback_period fd = ⊤
    simp only [calculate_payback_period]
    rw [if_pos hcf]
  · intro hti
    show (if 0 < calculate_total_investment fd then
        (calculate_annual_revenue fd - calculate_annual_costs fd) /
          calculate_total_investment fd * 100
      else 0) = 0
    rw [if_neg (not_lt.mpr hti)]

/-- Counterexample to C6 as stated: positive investment with negative annual
profit is a degenerate input, yet the ROI field is `-12`, not the claimed 0. -/
theorem roi_not_zero_on_negative_profit :
    (calculate_annual_revenue negative_profit_input -
        calculate_annual_costs negative_profit_input ≤ 0 ∨
      calculate_total_investment negative_profit_input ≤ 0) ∧
    (calculate_financial_results negative_profit_input).roi = -12 ∧
    (calculate_financial_results negative_profit_input).roi ≠ 0 := by
  refine ⟨Or.inl (by norm_num [calculate_annual_revenue, calculate_annual_costs,
    negative_profit_input]), ?_, ?_⟩ <;>
    norm_num [calculate_financial_results, calculate_total_investment,
      calculate_annual_revenue, calculate_annual_costs, negative_profit_input]

/-- Witness for the amended C6 at the all-zero-cost input. -/
theorem degenerate_input_sentinels_witness :
    (calculate_annual_revenue default_input - calculate_annual_costs default_input ≤ 0 ∨
      calculate_total_investment default_input ≤ 0) ∧
    ((calculate_financial_results default_input).irr = 0 ∧
    (calculate_annual_revenue default_input - calculate_annual_costs default_input ≤ 0 →
      (calculate_financial_results default_input).payback_period = ⊤) ∧
    (calculate_total_investment default_input ≤ 0 →
      (calculate_financial_results default_input).roi = 0)) :=
  ⟨Or.inl (by norm_num [calculate_annual_revenue, calculate_annual_costs, default_input]),
    degenerate_input_sentinels default_input
      (Or.inl (by norm_num [calculate_annual_revenue, calculate_annual_costs, default_input]))⟩

/-- C8 (amended): with positive annual profit, at least one project year and
discount rates above `-100` (positive discount factor), the NPV strictly
decreases as the discount rate increases. -/
theorem calculate_npv_strict_anti (fd : FinancialData) (r1 r2 : ℚ)
    (hcf : 0 < calculate_annual_revenue fd - calculate_annual_costs fd)
    (hlife : 1 ≤ fd.project_life_years)
    (h1 : -100 < r1) (h12 : r1 < r2) :
    calculate_npv { fd with discount_rate := r2 } <
      calculate_npv { fd with discount_rate := r1 } := by
  have hd1 : (0 : ℚ) < 1 + r1 / 100 := by linarith
  have hdlt : 1 + r1 / 100 < 1 + r2 / 100 := by linarith
  have e1 : calculate_npv { fd with discount_rate := r1 } =
      -calculate_total_investment fd +
        ∑ y in Finset.Icc 1 fd.project_life_years.toNat,
          (calculate_annual_revenue fd - calculate_annual_costs fd) /
            (1 + r1 / 100) ^ y := foldl_add_div _ _ _ _
  have e2 : calculate_npv { fd with discount_rate := r2 } =
      -calculate_total_investment fd +
        ∑ y in Finset.Icc 1 fd.project_life_years.toNat,
          (calculate_annual_revenue fd - calculate_annual_costs fd) /
            (1 + r2 / 100) ^ y := foldl_add_div _ _ _ _
  rw [e1, e2]
  refine add_lt_add_left (Finset.sum_lt_sum_of_nonempty ?_ fun y hy => ?_) _
  · exact ⟨1, Finset.mem_Icc.mpr ⟨le_refl 1, by omega⟩⟩
  · have hy1 : 1 ≤ y := (Finset.mem_Icc.mp hy).1
    exact div_lt_div_of_pos_left hcf (pow_pos hd1 y)
      (pow_lt_pow_left₀ hdlt hd1.le (by omega))

/-- Counterexample to C8 as stated: with positive profit but a rate below
`-100` the discount factor flips sign and the NPV at the smaller rate is
smaller, not larger. -/
theorem calculate_npv_not_strict_anti_at_neg200 :
    0 < calculate_annual_revenue one_year_input - calculate_annual_costs one_year_input ∧
    (-200 : ℚ) < 0 ∧
    calculate_npv { one_year_input with discount_rate := (-200 : ℚ) } <
      calculate_npv { one_year_input with discount_rate := (0 : ℚ) } := by
  refine ⟨by norm_num [calculate_annual_revenue, calculate_annual_costs, one_year_input],
    by norm_num, ?_⟩
  norm_num [calculate_npv, calculate_total_investment, calculate_annual_revenue,
    calculate_annual_costs, yearList, one_year_input, List.range']

/-- Witness for the amended C8. -/
theorem calculate_npv_strict_anti_witness :
    (0 < calculate_annual_revenue one_year_input - calculate_annual_costs one_year_input ∧
      1 ≤ one_year_input.project_life_years ∧
      (-100 : ℚ) < 0 ∧ (0 : ℚ) < 5) ∧
    calculate_npv { one_year_input with discount_rate := (5 : ℚ) } <
      calculate_npv { one_year_input with discount_rate := (0 : ℚ) } :=
  ⟨⟨by norm_num [calculate_annual_revenue, calculate_annual_costs, one_year_input],
    by norm_num [one_year_input], by norm_num, by norm_num⟩,
    calculate_npv_strict_anti one_year_input 0 5
      (by norm_num [calculate_annual_revenue, calculate_annual_costs, one_year_input])
      (by norm_num [one_year_input]) (by norm_num) (by norm_num)⟩

/-- The worked scenario of the spec: 6.1M investment, 1,000 m³/month at 800,
95,000 monthly fixed costs (50,000 + 15,000 + 20,000 + 10,000), 150 raw
material cost per unit, 10% discount rate, 10-year life. -/
def scenario_input : FinancialData :=
  { land_cost := 500000
    building_construction := 2000000
    machinery_equipment := 3000000
    installation_cost := 200000
    pre_operational_expenses := 100000
    working_capital := 300000
    palm_fronds_cost_per_ton := 150
    labor_cost_monthly := 50000
    maintenance_cost_monthly := 15000
    utilities_cost_monthly := 20000
    administrative_cost_monthly := 10000
    mdf_price_per_cubic_meter := 800
    production_capacity_monthly := 1000
    project_life_years := 10
    discount_rate := 10 }

/-- C9: on the worked scenario, the computed record matches the spec values:
investment 6.1M, revenue 9.6M, costs 2.94M, profit 6.66M,
ROI (6.66M/6.1M)·100, payback 6.1M/6.66M, strictly positive NPV and
saturated IRR 99. -/
theorem scenario_results :
    (calculate_financial_results scenario_input).total_investment = 6100000 ∧
    (calculate_financial_results scenario_input).annual_revenue = 9600000 ∧
    (calculate_financial_results scenario_input).annual_costs = 2940000 ∧
    (calculate_financial_results scenario_input).annual_profit = 6660000 ∧
    (calculate_financial_results scenario_input).roi = 6660000 / 6100000 * 100 ∧
    (calculate_financial_results scenario_input).payback_period =
      ((6100000 / 6660000 : ℚ) : WithTop ℚ) ∧
    0 < (calculate_financial_results scenario_input).npv ∧
    (calculate_financial_results scenario_input).irr = 99 := by
  refine ⟨?_, ?_, ?_, ?_, ?_, ?_, ?_, ?_⟩
  · show calculate_total_investment scenario_input = 6100000
    norm_num [calculate_total_investment, scenario_input]
  · show calculate_annual_revenue scenario_input = 9600000
    norm_num [calculate_annual_revenue, scenario_input]
  · show calculate_annual_costs scenario_input = 2940000
    norm_num [calculate_annual_costs, scenario_input]
  · show calculate_annual_revenue scenario_input -
        calculate_annual_costs scenario_input = 6660000
    norm_num [calculate_annual_revenue, calculate_annual_costs, scenario_input]
  · show (if 0 < calculate_total_investment scenario_input then
        (calculate_annual_revenue scenario_input -
            calculate_annual_costs scenario_input) /
          calculate_total_investment scenario_input * 100
      else 0) = 6660000 / 6100000 * 100
    norm_num [calculate_total_investment, calculate_annual_revenue,
      calculate_annual_costs, scenario_input]
  · show calculate_payback_period scenario_input = ((6100000 / 6660000 : ℚ) : WithTop ℚ)
    rw [calculate_payback_period]
    norm_num [calculate_total_investment, calculate_annual_revenue,
      calculate_annual_costs, scenario_input]
  · show 0 < calculate_npv scenario_input
    norm_num [calculate_npv, calculate_total_investment, calculate_annual_revenue,
      calculate_annual_costs, yearList, List.range', scenario_input]
  · show calculate_irr scenario_input = 99
    refine calculate_irr_saturates scenario_input ?_ ?_ ?_
    · norm_num [calculate_annual_revenue, calculate_annual_costs, scenario_input]
    · norm_num [calculate_total_investment, scenario_input]
    · norm_num [irr_trial_npv, calculate_total_investment, calculate_annual_revenue,
        calculate_annual_costs, yearList, List.range', scenario_input]

end MdfServer
